import Mathlib

/-!
# PhysScene: the scene adapter between the physics engine and the visual models

A shallow embedding of `src/PhysScene.cpp`.

Conventions of the embedding:

* C++ `float` is modelled by exact rationals (`Scalar`), so that copies, comparisons and the
  ring operations of the vector library are exact.
* The vector library (glm) is column-major: a `mat4` is its four columns. The cosine, sine and
  square root it calls are parameters (`ScalarLib`).
* Pointers to visual models are natural numbers indexing a heap of models; `none` is `nullptr`.
* The physics engine is external. Its time stepping is a parameter (`step`); its object model is
  embedded as plain data: a body owns a list of shapes in attach order, `createShape` appends,
  `getShapes` enumerates in that order and `detachShape` removes the shape it is given.
  Creation calls are taken to succeed, as the source dereferences their results unchecked.
* The enumeration buffers of `Update` are sized by the counts the engine reports, so its loops
  are folds over all dynamic bodies and over all shapes of each body.
* The `int` counters of `AttachRigidBodyConvex` are integers reduced to 32 bits, and its vertex
  buffer is written by index.
* The allocator works on byte-addressed memory with addresses reduced modulo the size of the
  address space.
-/

namespace PhysScene

/-! ## Scalars and the vector library -/

/-- Model of the C++ `float`. -/
abbrev Scalar := ℚ

/-- The glm three-vector. -/
structure vec3 where
  x : Scalar
  y : Scalar
  z : Scalar
  deriving DecidableEq

/-- The glm four-vector. -/
structure vec4 where
  x : Scalar
  y : Scalar
  z : Scalar
  w : Scalar
  deriving DecidableEq

/-- The glm quaternion; its constructor takes `w` first. -/
structure quat where
  w : Scalar
  x : Scalar
  y : Scalar
  z : Scalar
  deriving DecidableEq

/-- The glm 4x4 matrix, stored by columns: `m[i]` is column `i`. -/
structure mat4 where
  c0 : vec4
  c1 : vec4
  c2 : vec4
  c3 : vec4
  deriving DecidableEq

/-- Component-wise sum, `vec3 + vec3`. -/
def vec3.add (a b : vec3) : vec3 := ⟨a.x + b.x, a.y + b.y, a.z + b.z⟩

/-- The swizzle `.xyz` of a four-vector. -/
def vec4.xyz (v : vec4) : vec3 := ⟨v.x, v.y, v.z⟩

/-- Matrix times column vector, `mat4 * vec4`. -/
def mat4.mulVec (m : mat4) (v : vec4) : vec4 :=
  ⟨m.c0.x * v.x + m.c1.x * v.y + m.c2.x * v.z + m.c3.x * v.w,
   m.c0.y * v.x + m.c1.y * v.y + m.c2.y * v.z + m.c3.y * v.w,
   m.c0.z * v.x + m.c1.z * v.y + m.c2.z * v.z + m.c3.z * v.w,
   m.c0.w * v.x + m.c1.w * v.y + m.c2.w * v.z + m.c3.w * v.w⟩

/-- Matrix product, `mat4 * mat4`: each column of the right factor is mapped by the left one. -/
def mat4.mul (a b : mat4) : mat4 :=
  ⟨a.mulVec b.c0, a.mulVec b.c1, a.mulVec b.c2, a.mulVec b.c3⟩

/-- The identity matrix, `mat4(1)`. -/
def mat4.one : mat4 := ⟨⟨1, 0, 0, 0⟩, ⟨0, 1, 0, 0⟩, ⟨0, 0, 1, 0⟩, ⟨0, 0, 0, 1⟩⟩

/-- The matrix `glm::translate(v)`: identity with `v` in the fourth column. -/
def translate (v : vec3) : mat4 :=
  ⟨⟨1, 0, 0, 0⟩, ⟨0, 1, 0, 0⟩, ⟨0, 0, 1, 0⟩, ⟨v.x, v.y, v.z, 1⟩⟩

/-- The matrix `glm::scale(v)`: the diagonal matrix of `v`. -/
def scale (v : vec3) : mat4 :=
  ⟨⟨v.x, 0, 0, 0⟩, ⟨0, v.y, 0, 0⟩, ⟨0, 0, v.z, 0⟩, ⟨0, 0, 0, 1⟩⟩

/-- The matrix `glm::toMat4(q)`: the rotation matrix of a quaternion in homogeneous form. -/
def toMat4 (q : quat) : mat4 :=
  ⟨⟨1 - 2 * (q.y * q.y + q.z * q.z), 2 * (q.x * q.y + q.w * q.z), 2 * (q.x * q.z - q.w * q.y), 0⟩,
   ⟨2 * (q.x * q.y - q.w * q.z), 1 - 2 * (q.x * q.x + q.z * q.z), 2 * (q.y * q.z + q.w * q.x), 0⟩,
   ⟨2 * (q.x * q.z + q.w * q.y), 2 * (q.y * q.z - q.w * q.x), 1 - 2 * (q.x * q.x + q.y * q.y), 0⟩,
   ⟨0, 0, 0, 1⟩⟩

/-- The scalar functions of the mathematics library that the vector library calls. They are
not part of the sources and are parameters of the embedding. -/
structure ScalarLib where
  cos : Scalar → Scalar
  sin : Scalar → Scalar
  sqrt : Scalar → Scalar

/-- The function `glm::radians(degrees)`: the degrees times the library's constant for pi over
180. -/
def radians (degrees : Scalar) : Scalar :=
  degrees * (3.1415926535897932384626433832795 / 180)

/-- The function `glm::dot` on three-vectors. -/
def dot (a b : vec3) : Scalar := a.x * b.x + a.y * b.y + a.z * b.z

/-- The function `glm::inversesqrt(x)`: one over the square root. -/
def inversesqrt (lib : ScalarLib) (x : Scalar) : Scalar := 1 / lib.sqrt x

/-- The function `glm::normalize(x)`: `x * inversesqrt(dot(x, x))`. -/
def normalize (lib : ScalarLib) (x : vec3) : vec3 :=
  ⟨x.x * inversesqrt lib (dot x x), x.y * inversesqrt lib (dot x x),
   x.z * inversesqrt lib (dot x x)⟩

/-- Scalar times three-vector, `s * vec3`. -/
def vec3.smul (s : Scalar) (v : vec3) : vec3 := ⟨s * v.x, s * v.y, s * v.z⟩

/-- Four-vector times scalar, `vec4 * s`. -/
def vec4.mulScalar (v : vec4) (s : Scalar) : vec4 := ⟨v.x * s, v.y * s, v.z * s, v.w * s⟩

/-- Component-wise sum, `vec4 + vec4`. -/
def vec4.add (a b : vec4) : vec4 := ⟨a.x + b.x, a.y + b.y, a.z + b.z, a.w + b.w⟩

/-- The function `glm::rotate(m, angle, v)`, the angle in radians: the rotation by `angle`
about the normalized axis `v` is built from the cosine and sine of `angle` and its three
columns are combined with the columns of `m`. -/
def rotateM (lib : ScalarLib) (m : mat4) (angle : Scalar) (v : vec3) : mat4 :=
  let a := angle
  let c := lib.cos a
  let s := lib.sin a
  let axis := normalize lib v
  let temp := vec3.smul (1 - c) axis
  let r00 := c + temp.x * axis.x
  let r01 := 0 + temp.x * axis.y + s * axis.z
  let r02 := 0 + temp.x * axis.z - s * axis.y
  let r10 := 0 + temp.y * axis.x - s * axis.z
  let r11 := c + temp.y * axis.y
  let r12 := 0 + temp.y * axis.z + s * axis.x
  let r20 := 0 + temp.z * axis.x + s * axis.y
  let r21 := 0 + temp.z * axis.y - s * axis.x
  let r22 := c + temp.z * axis.z
  ⟨((m.c0.mulScalar r00).add (m.c1.mulScalar r01)).add (m.c2.mulScalar r02),
   ((m.c0.mulScalar r10).add (m.c1.mulScalar r11)).add (m.c2.mulScalar r12),
   ((m.c0.mulScalar r20).add (m.c1.mulScalar r21)).add (m.c2.mulScalar r22),
   m.c3⟩

/-- The function `glm::rotate(angle, v)`: `rotate(mat4(1), angle, v)`. -/
def rotate (lib : ScalarLib) (angle : Scalar) (v : vec3) : mat4 :=
  rotateM lib mat4.one angle v

/-- The action of the upper-left 3x3 block of a matrix on a three-vector. -/
def mat4.rotateVec (m : mat4) (p : vec3) : vec3 :=
  ⟨m.c0.x * p.x + m.c1.x * p.y + m.c2.x * p.z,
   m.c0.y * p.x + m.c1.y * p.y + m.c2.y * p.z,
   m.c0.z * p.x + m.c1.z * p.y + m.c2.z * p.z⟩

/-! ## The physics engine's data -/

/-- The engine's three-vector. -/
structure PxVec3 where
  x : Scalar
  y : Scalar
  z : Scalar
  deriving DecidableEq

/-- The engine's quaternion, stored `x, y, z, w`. -/
structure PxQuat where
  x : Scalar
  y : Scalar
  z : Scalar
  w : Scalar
  deriving DecidableEq

/-- The engine's rigid transform: orientation `q` and position `p`. -/
structure PxTransform where
  q : PxQuat
  p : PxVec3
  deriving DecidableEq

/-- The identity quaternion, `PxQuat(PxIdentity)`. -/
def PxQuat.identity : PxQuat := ⟨0, 0, 0, 1⟩

/-- The constructor `PxTransform(const PxVec3&)`: the given position with identity orientation. -/
def PxTransform.ofPosition (p : PxVec3) : PxTransform := ⟨PxQuat.identity, p⟩

/-- The cast `*(vec3*)(&p[0])`: the engine vector read as a glm vector. -/
def PxVec3.toVec3 (p : PxVec3) : vec3 := ⟨p.x, p.y, p.z⟩

/-- The cast `*(PxVec3*)(&v[0])`: the glm vector read as an engine vector. -/
def vec3.toPxVec3 (v : vec3) : PxVec3 := ⟨v.x, v.y, v.z⟩

/-- The conversion `quat(q.w, q.x, q.y, q.z)`. -/
def PxQuat.toQuat (q : PxQuat) : quat := ⟨q.w, q.x, q.y, q.z⟩

/-- A cooked convex mesh, identified by the stream contents it was created from. -/
structure PxConvexMesh where
  cooked : List Nat
  deriving DecidableEq

/-- The engine's geometry variants (`PxGeometryType`). -/
inductive PxGeometry where
  | sphere (radius : Scalar)
  | plane
  | capsule (radius halfHeight : Scalar)
  | box (halfExtents : PxVec3)
  | convexMesh (mesh : PxConvexMesh)
  | triangleMesh
  | heightField
  deriving DecidableEq

/-- A shape: a geometry with a pose local to its body. -/
structure PxShape where
  localPose : PxTransform
  geometry : PxGeometry
  deriving DecidableEq

/-- A dynamic rigid body: global pose, back-reference (`userData`) and shapes in attach order. -/
structure PxRigidDynamic where
  globalPose : PxTransform
  userData : Option Nat
  shapes : List PxShape
  deriving DecidableEq

/-- The call `PxCreateDynamic(sdk, transform, geometry, material, density)`: a body at the given
pose with one shape of the given geometry at the identity local pose and no back-reference. -/
def PxCreateDynamic (a_transform : PxTransform) (a_geometry : PxGeometry) : PxRigidDynamic :=
  { globalPose := a_transform
    userData := none
    shapes := [⟨PxTransform.ofPosition ⟨0, 0, 0⟩, a_geometry⟩] }

/-- The call `PxRigidActor::createShape(geometry, material, localPose)`: a new shape is attached
after the shapes already present. -/
def PxRigidDynamic.createShape (actor : PxRigidDynamic) (geometry : PxGeometry)
    (localPose : PxTransform) : PxRigidDynamic :=
  { actor with shapes := actor.shapes ++ [⟨localPose, geometry⟩] }

/-- The call `detachShape(*shapes[i])` on the buffer filled by `getShapes`: the shape that
`getShapes` lists at index `i` is removed from the body. -/
def PxRigidDynamic.detachShape (actor : PxRigidDynamic) (i : Nat) : PxRigidDynamic :=
  { actor with shapes := actor.shapes.eraseIdx i }

/-- The descriptor handed to convex cooking (`PxConvexMeshDesc`). -/
structure PxConvexMeshDesc where
  points_count : Nat
  points_stride : Nat
  points_data : List PxVec3
  computeConvex : Bool
  vertexLimit : Nat
  deriving DecidableEq

/-- The cooking subsystem: `cookConvexMesh` reports success and the bytes it wrote to the
output stream. -/
structure PxCooking where
  cookConvexMesh : PxConvexMeshDesc → Bool × List Nat

/-- The call `PxPhysics::createConvexMesh(input)` on the stream contents. -/
def createConvexMesh (input : List Nat) : PxConvexMesh := ⟨input⟩

/-! ## The visual models -/

/-- A vertex of a sub-mesh; only its position is read here. -/
structure FBXVertex where
  position : vec4
  deriving DecidableEq

/-- A sub-mesh: its stored transform and its vertices. -/
structure FBXMeshNode where
  m_globalTransform : mat4
  m_vertices : List FBXVertex
  deriving DecidableEq

/-- The loaded file of a model: its sub-meshes, in `getMeshByIndex` order. -/
structure FBXFile where
  meshes : List FBXMeshNode
  deriving DecidableEq

/-- A visual model: world position and orientation, base transform, and its file. -/
structure FBXModel where
  m_pos : vec3
  m_rot : quat
  m_modTransform : mat4
  m_file : FBXFile
  deriving DecidableEq

/-! ## The gizmo layer -/

/-- A recorded call of the debug-drawing layer, with the arguments the adapter passes. -/
inductive GizmoCall where
  | addSphere (center : vec3) (radius : Scalar) (rows columns : Nat) (fillColour : vec4)
      (transform : mat4)
  | addCapsule (center : vec3) (height radius : Scalar) (rows columns : Nat) (fillColour : vec4)
      (transform : mat4)
  | addAABB (center : vec3) (extents : vec3) (fillColour : vec4) (transform : mat4)
  deriving DecidableEq

/-- The centre argument of a gizmo call. -/
def GizmoCall.center : GizmoCall → vec3
  | .addSphere c _ _ _ _ _ => c
  | .addCapsule c _ _ _ _ _ _ => c
  | .addAABB c _ _ _ => c

/-- The transform argument of a gizmo call. -/
def GizmoCall.transform : GizmoCall → mat4
  | .addSphere _ _ _ _ _ t => t
  | .addCapsule _ _ _ _ _ _ t => t
  | .addAABB _ _ _ t => t

/-! ## The adapter's state -/

/-- Everything the adapter reads or writes: its cooking handle, the dynamic bodies of the engine
scene in `getActors` order, the steps handed to `simulate`, the descriptors handed to cooking,
the heap of visual models and the gizmo calls issued so far. -/
structure World where
  m_cooking : Option PxCooking
  dynamicActors : List PxRigidDynamic
  simulateCalls : List Scalar
  cookCalls : List PxConvexMeshDesc
  models : Nat → FBXModel
  gizmos : List GizmoCall

/-- The call `m_physicsScene->addActor(*m_phys)`. -/
def World.addActor (w : World) (m_phys : PxRigidDynamic) : World :=
  { w with dynamicActors := w.dynamicActors ++ [m_phys] }

/-! ## `PhysScene::Update` -/

/-- The clamped step of `Update`: `(dt > 1.0f / 30.f) ? 1.0f / 30.0f : dt`. -/
def dtClamped (dt : Scalar) : Scalar :=
  if dt > 1 / 30 then 1 / 30 else dt

/-- The body of the inner loop of `Update`: the gizmo calls issued for one shape of a body with
global position `globalPos` and global orientation `globalRot`. -/
def Update.shape (globalPos : vec3) (globalRot : quat) (shape : PxShape) : List GizmoCall :=
  let shapeTransform := shape.localPose
  let localPos := shapeTransform.p.toVec3
  let localRot := shapeTransform.q.toQuat
  let localMat := ((toMat4 globalRot).mul (toMat4 localRot)).mul (translate localPos)
  let localPos := localMat.c3.xyz
  match shape.geometry with
  | .sphere radius =>
    [.addSphere (globalPos.add localPos) radius 12 12 ⟨0, 1, 0, 1⟩ localMat]
  | .capsule radius halfHeight =>
    [.addCapsule (globalPos.add localPos) (halfHeight * 2) radius 12 12 ⟨0, 1, 0, 1⟩ localMat]
  | .box halfExtents =>
    [.addAABB (globalPos.add localPos) halfExtents.toVec3 ⟨0, 1, 0, 1⟩ localMat]
  | _ => []

/-- The body of the outer loop of `Update`, acting on the model heap and the gizmo list. -/
def Update.actor (a_renderGizmos : Bool) (st : (Nat → FBXModel) × List GizmoCall)
    (actor : PxRigidDynamic) : (Nat → FBXModel) × List GizmoCall :=
  let transform := actor.globalPose
  let globalPos := transform.p.toVec3
  let globalRot := transform.q.toQuat
  let models :=
    match actor.userData with
    | some model =>
      Function.update st.1 model { st.1 model with m_pos := globalPos, m_rot := globalRot }
    | none => st.1
  let gizmos :=
    if a_renderGizmos then
      actor.shapes.foldl (fun gizmos shape => gizmos ++ Update.shape globalPos globalRot shape)
        st.2
    else st.2
  (models, gizmos)

/-- The method `PhysScene::Update(dt, a_renderGizmos)`. The engine's time stepping (`simulate`
followed by `fetchResults` until it reports completion) is the parameter `step`, which maps the
step length and the bodies before the step to the bodies after it. -/
def Update (step : Scalar → List PxRigidDynamic → List PxRigidDynamic) (dt : Scalar)
    (a_renderGizmos : Bool) (w : World) : World :=
  let dtClamped := dtClamped dt
  let dynamicActors := step dtClamped w.dynamicActors
  let st := dynamicActors.foldl (Update.actor a_renderGizmos) (w.models, w.gizmos)
  { w with
    dynamicActors := dynamicActors
    simulateCalls := w.simulateCalls ++ [dtClamped]
    models := st.1
    gizmos := st.2 }

/-! ## Body creation -/

/-- The method `PhysScene::AddRigidBodyStatic`; material and density only feed the engine's mass
properties and are left out. -/
def AddRigidBodyStatic (a_transform : PxTransform) (a_geometry : PxGeometry)
    (a_userData : Option Nat) (w : World) : World :=
  let m_phys := PxCreateDynamic a_transform a_geometry
  let m_phys := { m_phys with userData := a_userData }
  w.addActor m_phys

/-- The call `shapes->setLocalPose(pose)` on the buffer filled by `getShapes`: the first shape of
the body gets the pose. -/
def PxRigidDynamic.setFirstLocalPose (actor : PxRigidDynamic) (pose : PxTransform) :
    PxRigidDynamic :=
  { actor with shapes := actor.shapes.modifyHead (fun shape => { shape with localPose := pose }) }

/-- The method `PhysScene::AddRigidBodyDynamic`; material and density only feed the engine's mass
properties and are left out. The parameter `lib` holds the scalar functions behind
`glm::rotate`. -/
def AddRigidBodyDynamic (lib : ScalarLib) (a_transform : PxTransform) (a_geometry : PxGeometry)
    (a_userData : Option Nat) (w : World) : World :=
  let m_phys := PxCreateDynamic a_transform a_geometry
  match a_userData with
  | some model =>
    let m_phys := { m_phys with userData := some model }
    let r : vec3 × (Nat → FBXModel) :=
      match a_geometry with
      | .sphere radius => (⟨0, radius, 0⟩, w.models)
      | .capsule _ halfHeight =>
        (⟨halfHeight, 0, 0⟩,
          Function.update w.models model
            { w.models model with
              m_modTransform :=
                (rotate lib (radians 90) ⟨0, 0, 1⟩).mul (w.models model).m_modTransform })
      | .box halfExtents => (⟨0, halfExtents.y, 0⟩, w.models)
      | _ => (⟨0, 0, 0⟩, w.models)
    let modelExtents := r.1
    let relativePose := PxTransform.ofPosition modelExtents.toPxVec3
    let m_phys := m_phys.setFirstLocalPose relativePose
    { w with models := r.2 }.addActor m_phys
  | none => w.addActor m_phys

/-! ## Convex-hull attachment -/

/-- Conversion of an integer to the 32-bit `int`. -/
def toInt32 (n : Int) : Int := (n + 2 ^ 31) % 2 ^ 32 - 2 ^ 31

/-- Conversion of an `int` to the 32-bit unsigned `PxU32`. -/
def toUInt32 (n : Int) : Nat := (n % 2 ^ 32).toNat

/-- The first loop of `AttachRigidBodyConvex`: the `int` counter `numberVerts` after adding the
vertex count of every sub-mesh. -/
def countVerts (meshes : List FBXMeshNode) : Int :=
  meshes.foldl (fun numberVerts mesh => toInt32 (numberVerts + mesh.m_vertices.length)) 0

/-- One round of the innermost copy loop: vertex `vertCount` of `mesh` is transformed and stored
at `verts[vertIDX++]`. The state is the buffer and `vertIDX`. -/
def copyVertex (a_physModelScale : Scalar) (mesh : FBXMeshNode) (st : List PxVec3 × Int)
    (vertCount : Nat) : List PxVec3 × Int :=
  let temp :=
    (mesh.m_globalTransform.mul
        (scale ⟨a_physModelScale, a_physModelScale, a_physModelScale⟩)).mulVec
      (mesh.m_vertices.getD vertCount ⟨⟨0, 0, 0, 0⟩⟩).position
  (st.1.set st.2.toNat ⟨temp.x, temp.y, temp.z⟩, toInt32 (st.2 + 1))

/-- One round of the outer copy loop: all vertices of one sub-mesh, `vertCount` running from 0
to the `int` vertex count of the sub-mesh. -/
def copyMesh (a_physModelScale : Scalar) (st : List PxVec3 × Int) (mesh : FBXMeshNode) :
    List PxVec3 × Int :=
  let numberVerts := toInt32 mesh.m_vertices.length
  (List.range numberVerts.toNat).foldl (copyVertex a_physModelScale mesh) st

/-- The vertex buffer `verts` after the copy loops: it is allocated with `numberVerts` entries
and filled by index. -/
def fillVerts (a_physModelScale : Scalar) (meshes : List FBXMeshNode) (numberVerts : Int) :
    List PxVec3 :=
  (meshes.foldl (copyMesh a_physModelScale)
    (List.replicate numberVerts.toNat ⟨0, 0, 0⟩, 0)).1

/-- The descriptor `convexDesc` that `AttachRigidBodyConvex` builds for a model. -/
def convexDesc (a_physModelScale : Scalar) (model : FBXModel) : PxConvexMeshDesc :=
  let numberVerts := countVerts model.m_file.meshes
  let verts := fillVerts a_physModelScale model.m_file.meshes numberVerts
  { points_count := toUInt32 numberVerts
    points_stride := 12
    points_data := verts
    computeConvex := true
    vertexLimit := 128 }

/-- The method `PhysScene::AttachRigidBodyConvex`; material and density only feed the engine's
mass properties and are left out. -/
def AttachRigidBodyConvex (a_transform : PxTransform) (a_userData : Option Nat)
    (a_physModelScale : Scalar) (w : World) : World :=
  match a_userData with
  | none => w
  | some modelPtr =>
    let m_phys := PxCreateDynamic a_transform (.box ⟨1, 1, 1⟩)
    let m_phys := { m_phys with userData := some modelPtr }
    let model := w.models modelPtr
    let convexDesc := convexDesc a_physModelScale model
    -- `buf` starts empty; `succeeded` is assigned and never read
    let cooked : Bool × List Nat :=
      match w.m_cooking with
      | some cooking => cooking.cookConvexMesh convexDesc
      | none => (false, [])
    let cookCalls :=
      match w.m_cooking with
      | some _ => w.cookCalls ++ [convexDesc]
      | none => w.cookCalls
    let input := cooked.2
    let convexMesh := createConvexMesh input
    let pose := PxTransform.ofPosition ⟨0, 0, 0⟩
    let m_phys := m_phys.createShape (.convexMesh convexMesh) pose
    -- remove the placeholder box: the first entry of the `getShapes` buffer
    let m_phys := m_phys.detachShape 0
    { w with cookCalls := cookCalls }.addActor m_phys

/-! ## `MyAllocator` -/

/-- Byte-addressed memory. -/
abbrev Memory := Nat → Nat

/-- Store of a pointer-sized value: `n` bytes, least significant first, starting at `addr`. -/
def storePtr (mem : Memory) (addr v : Nat) : Nat → Memory
  | 0 => mem
  | n + 1 => storePtr (Function.update mem addr (v % 256)) (addr + 1) (v / 256) n

/-- Load of a pointer-sized value: `n` bytes, least significant first, starting at `addr`. -/
def loadPtr (mem : Memory) (addr : Nat) : Nat → Nat
  | 0 => 0
  | n + 1 => mem addr % 256 + 256 * loadPtr mem (addr + 1) n

/-- The method `MyAllocator::allocate` on a machine whose pointers have `ptrBytes` bytes.
`malloc` maps the requested size to the address it returns. The result is `none` when the
`Assert` traps, and otherwise the returned pointer with the memory after the header store. -/
def allocate (ptrBytes : Nat) (malloc : Nat → Nat) (mem : Memory) (size : Nat) :
    Option (Nat × Memory) :=
  let word := 256 ^ ptrBytes
  let new_mem := malloc ((size + 32) % word)
  let result := (new_mem + (16 - new_mem % 16)) % word
  if result % 16 = 0 then
    some ((result + 16) % word, storePtr mem result new_mem ptrBytes)
  else none

/-- The method `MyAllocator::deallocate`: the address handed to `free`, or `none` when the
pointer is null and nothing is freed. -/
def deallocate (ptrBytes : Nat) (mem : Memory) (ptr : Nat) : Option Nat :=
  if ptr ≠ 0 then
    let real_ptr := loadPtr mem ((ptr + 256 ^ ptrBytes - 16) % 256 ^ ptrBytes) ptrBytes
    some real_ptr
  else none

/-! ## Vocabulary of the statements -/

/-- The gizmo calls that `Update` issues for one body. -/
def Update.actorCalls (actor : PxRigidDynamic) : List GizmoCall :=
  actor.shapes.flatMap
    (Update.shape actor.globalPose.p.toVec3 actor.globalPose.q.toQuat)

/-- Geometry kinds for which the gizmo layer has a primitive: sphere, capsule and box. -/
def PxGeometry.hasGizmo : PxGeometry → Bool
  | .sphere _ => true
  | .capsule _ _ => true
  | .box _ => true
  | _ => false

/-- A gizmo call is of the primitive matching a geometry: `addSphere` for a sphere, `addCapsule`
for a capsule, `addAABB` for a box. -/
def GizmoCall.isFor : GizmoCall → PxGeometry → Bool
  | .addSphere _ _ _ _ _ _, .sphere _ => true
  | .addCapsule _ _ _ _ _ _ _, .capsule _ _ => true
  | .addAABB _ _ _ _, .box _ => true
  | _, _ => false

/-- A time step that leaves every body where it is (bodies at rest). -/
def restStep : Scalar → List PxRigidDynamic → List PxRigidDynamic := fun _ actors => actors

/-- A model at the origin with identity orientation, identity base transform and no sub-mesh. -/
def blankModel : FBXModel := ⟨⟨0, 0, 0⟩, ⟨1, 0, 0, 0⟩, mat4.one, ⟨[]⟩⟩

/-- A world without cooking, bodies, or gizmo calls, whose models are all blank. -/
def emptyWorld : World :=
  { m_cooking := none
    dynamicActors := []
    simulateCalls := []
    cookCalls := []
    models := fun _ => blankModel
    gizmos := [] }

/-- A unit sphere body at position `p` with identity orientation referring to model `model`. -/
def sphereBodyAt (p : PxVec3) (model : Option Nat) : PxRigidDynamic :=
  { globalPose := ⟨PxQuat.identity, p⟩
    userData := model
    shapes := [⟨PxTransform.ofPosition ⟨0, 1, 0⟩, .sphere 1⟩] }

/-- Two sphere bodies, at `(1, 0, 0)` and `(2, 0, 0)`, that both refer to model 0. -/
def sharedModelWorld : World :=
  { emptyWorld with
    dynamicActors := [sphereBodyAt ⟨1, 0, 0⟩ (some 0), sphereBodyAt ⟨2, 0, 0⟩ (some 0)] }

/-- A cooking subsystem that succeeds and writes one byte per declared point. -/
def countingCooking : PxCooking :=
  ⟨fun desc => (true, List.replicate desc.points_count 1)⟩

/-- A model of two sub-meshes: one vertex `(1, 2, 3)` under the translation by `(1, 0, 0)`, and
the vertices `(0, 0, 0)` and `(1, 1, 1)` under the identity. -/
def twoMeshModel : FBXModel :=
  { blankModel with
    m_file :=
      ⟨[⟨translate ⟨1, 0, 0⟩, [⟨⟨1, 2, 3, 1⟩⟩]⟩,
        ⟨mat4.one, [⟨⟨0, 0, 0, 1⟩⟩, ⟨⟨1, 1, 1, 1⟩⟩]⟩]⟩ }

/-- A world with cooking whose models are all `twoMeshModel`. -/
def cookingWorld : World :=
  { emptyWorld with
    m_cooking := some countingCooking
    models := fun _ => twoMeshModel }

/-- A unit-quaternion orientation with rational entries: the turn about Z with half-angle
cosine `3/5` and sine `4/5`. -/
def turnZ : PxQuat := ⟨0, 0, 4 / 5, 3 / 5⟩

/-- A world with one body at `(0, 5, 0)`, turned by `turnZ`, carrying a capsule of radius 1 and
half-height 2 at local position `(1, 0, 0)` and a convex-mesh shape. -/
def capsuleWorld : World :=
  { emptyWorld with
    dynamicActors :=
      [{ globalPose := ⟨turnZ, ⟨0, 5, 0⟩⟩
         userData := none
         shapes := [⟨PxTransform.ofPosition ⟨1, 0, 0⟩, .capsule 1 2⟩,
                    ⟨PxTransform.ofPosition ⟨0, 0, 0⟩, .convexMesh ⟨[]⟩⟩] }] }

/-- The point of a vertex of a sub-mesh: the `xyz` part of the sub-mesh transform times the
uniform scaling by `s` times the vertex position. -/
def hullPoint (s : Scalar) (mesh : FBXMeshNode) (v : FBXVertex) : PxVec3 :=
  ((mesh.m_globalTransform.mul (scale ⟨s, s, s⟩)).mulVec v.position).xyz.toPxVec3

/-- The points of all vertices of all sub-meshes, in sub-mesh order and then vertex order. -/
def hullPoints (s : Scalar) (meshes : List FBXMeshNode) : List PxVec3 :=
  meshes.flatMap (fun mesh => mesh.m_vertices.map (hullPoint s mesh))

/-- The number of vertices of all sub-meshes together. -/
def totalVerts (meshes : List FBXMeshNode) : Nat :=
  (meshes.map (fun mesh => mesh.m_vertices.length)).sum

/-! ## Properties of `Update` -/

/-- The clamped step is the smaller of the elapsed time and one thirtieth. -/
theorem dtClamped_eq_min (dt : Scalar) : dtClamped dt = min dt (1 / 30) := by
  unfold dtClamped
  split_ifs with h
  · exact (min_eq_right (le_of_lt h)).symm
  · exact (min_eq_left (not_lt.mp h)).symm

/-- A body that does not refer to `model` leaves it untouched. -/
theorem Update.actor_models_of_ne (a_renderGizmos : Bool)
    (st : (Nat → FBXModel) × List GizmoCall) (actor : PxRigidDynamic) (model : Nat)
    (h : actor.userData ≠ some model) :
    (Update.actor a_renderGizmos st actor).1 model = st.1 model := by
  unfold Update.actor
  cases hud : actor.userData with
  | none => rfl
  | some m =>
    have hne : model ≠ m := by
      intro hEq
      exact h (by rw [hud, hEq])
    simp [Function.update_noteq hne]

/-- A body that refers to `model` writes its pose into it. -/
theorem Update.actor_models_of_eq (a_renderGizmos : Bool)
    (st : (Nat → FBXModel) × List GizmoCall) (actor : PxRigidDynamic) (model : Nat)
    (h : actor.userData = some model) :
    (Update.actor a_renderGizmos st actor).1 model =
      { st.1 model with
        m_pos := actor.globalPose.p.toVec3
        m_rot := actor.globalPose.q.toQuat } := by
  unfold Update.actor
  simp [h]

/-- Bodies none of which refers to `model` leave it untouched. -/
theorem Update.foldl_models_of_ne (a_renderGizmos : Bool) (actors : List PxRigidDynamic)
    (model : Nat) (h : ∀ b ∈ actors, b.userData ≠ some model) :
    ∀ st : (Nat → FBXModel) × List GizmoCall,
      (actors.foldl (Update.actor a_renderGizmos) st).1 model = st.1 model := by
  induction actors with
  | nil => intro st; rfl
  | cons a rest ih =>
    intro st
    rw [List.foldl_cons, ih (fun b hb => h b (List.mem_cons_of_mem _ hb))]
    exact Update.actor_models_of_ne _ _ _ _ (h a (List.mem_cons_self _ _))

/-- The inner loop appends the calls of the shapes in order. -/
theorem Update.foldl_shape (globalPos : vec3) (globalRot : quat) (shapes : List PxShape) :
    ∀ gizmos : List GizmoCall,
      shapes.foldl (fun gizmos shape => gizmos ++ Update.shape globalPos globalRot shape) gizmos
        = gizmos ++ shapes.flatMap (Update.shape globalPos globalRot) := by
  induction shapes with
  | nil => intro gizmos; simp
  | cons s rest ih =>
    intro gizmos
    rw [List.foldl_cons, ih, List.flatMap_cons, List.append_assoc]

/-- With the flag set the outer loop appends the calls of the bodies in order. -/
theorem Update.foldl_gizmos_true (actors : List PxRigidDynamic) :
    ∀ st : (Nat → FBXModel) × List GizmoCall,
      (actors.foldl (Update.actor true) st).2 = st.2 ++ actors.flatMap Update.actorCalls := by
  induction actors with
  | nil => intro st; simp
  | cons a rest ih =>
    intro st
    rw [List.foldl_cons, ih, List.flatMap_cons, ← List.append_assoc]
    congr 1
    simp [Update.actor, Update.foldl_shape, Update.actorCalls]

/-- With the flag clear the outer loop leaves the gizmo list alone. -/
theorem Update.foldl_gizmos_false (actors : List PxRigidDynamic) :
    ∀ st : (Nat → FBXModel) × List GizmoCall,
      (actors.foldl (Update.actor false) st).2 = st.2 := by
  induction actors with
  | nil => intro st; rfl
  | cons a rest ih =>
    intro st
    rw [List.foldl_cons, ih]
    simp [Update.actor]

/-- The translation column of `m * translate p`, for `m` with fourth column `(0, 0, 0, 1)`, is
the image of `p` under the 3x3 block of `m`. -/
theorem mul_translate_c3 (m : mat4) (p : vec3) (h : m.c3 = ⟨0, 0, 0, 1⟩) :
    (m.mul (translate p)).c3.xyz = m.rotateVec p := by
  have hx : m.c3.x = 0 := by rw [h]
  have hy : m.c3.y = 0 := by rw [h]
  have hz : m.c3.z = 0 := by rw [h]
  simp [mat4.mul, mat4.mulVec, translate, vec4.xyz, mat4.rotateVec, hx, hy, hz]

/-- The product of two quaternion rotation matrices has fourth column `(0, 0, 0, 1)`. -/
theorem toMat4_mul_c3 (g l : quat) : ((toMat4 g).mul (toMat4 l)).c3 = ⟨0, 0, 0, 1⟩ := by
  simp [mat4.mul, mat4.mulVec, toMat4]

/-- Transform and centre of every call issued for a shape. -/
theorem Update.shape_call (globalPos : vec3) (globalRot : quat) (shape : PxShape)
    (call : GizmoCall) (h : call ∈ Update.shape globalPos globalRot shape) :
    call.transform =
        ((toMat4 globalRot).mul (toMat4 shape.localPose.q.toQuat)).mul
          (translate shape.localPose.p.toVec3) ∧
      call.center = globalPos.add call.transform.c3.xyz ∧
      call.center =
        globalPos.add
          (((toMat4 globalRot).mul (toMat4 shape.localPose.q.toQuat)).rotateVec
            shape.localPose.p.toVec3) := by
  have hc := mul_translate_c3 _ shape.localPose.p.toVec3
    (toMat4_mul_c3 globalRot shape.localPose.q.toQuat)
  unfold Update.shape at h
  cases hg : shape.geometry <;> simp [hg] at h <;> subst h <;>
    exact ⟨rfl, rfl, by simp only [GizmoCall.center]; rw [hc]⟩

/-- C2: the step handed to `simulate` by `Update` is the clamped elapsed time, which is one
thirtieth when the elapsed time exceeds one thirtieth and the elapsed time itself otherwise
(zero and negative values included): it is the minimum of the two. -/
theorem Update_simulate_step (step : Scalar → List PxRigidDynamic → List PxRigidDynamic)
    (dt : Scalar) (a_renderGizmos : Bool) (w : World) :
    (Update step dt a_renderGizmos w).simulateCalls = w.simulateCalls ++ [dtClamped dt] ∧
      (dt > 1 / 30 → dtClamped dt = 1 / 30) ∧
      (dt ≤ 1 / 30 → dtClamped dt = dt) ∧
      dtClamped dt = min dt (1 / 30) := by
  refine ⟨rfl, ?_, ?_, dtClamped_eq_min dt⟩
  · intro h
    unfold dtClamped
    rw [if_pos h]
  · intro h
    unfold dtClamped
    rw [if_neg (not_lt.mpr h)]

/-- C7: with the gizmo flag set, `Update` issues no call for a shape whose geometry is not a
sphere, capsule or box, exactly one call of the matching primitive for a shape whose geometry is
one of these, so the number of calls of one update is the number of such shapes on the dynamic
bodies; with the flag clear it issues none. -/
theorem Update_gizmo_calls (step : Scalar → List PxRigidDynamic → List PxRigidDynamic)
    (dt : Scalar) (w : World) :
    (∀ (globalPos : vec3) (globalRot : quat) (shape : PxShape),
        shape.geometry.hasGizmo = false → Update.shape globalPos globalRot shape = []) ∧
      (∀ (globalPos : vec3) (globalRot : quat) (shape : PxShape),
        shape.geometry.hasGizmo = true →
          ∃ call, Update.shape globalPos globalRot shape = [call] ∧
            call.isFor shape.geometry = true) ∧
      (Update step dt true w).gizmos =
        w.gizmos ++ (Update step dt true w).dynamicActors.flatMap Update.actorCalls ∧
      (Update step dt true w).gizmos.length =
        w.gizmos.length +
          ((Update step dt true w).dynamicActors.map
            (fun actor => actor.shapes.countP (fun shape => shape.geometry.hasGizmo))).sum ∧
      (Update step dt false w).gizmos = w.gizmos := by
  have hShape : ∀ (globalPos : vec3) (globalRot : quat) (shape : PxShape),
      (Update.shape globalPos globalRot shape).length =
        if shape.geometry.hasGizmo then 1 else 0 := by
    intro globalPos globalRot shape
    unfold Update.shape
    cases hg : shape.geometry <;> simp [PxGeometry.hasGizmo]
  have hActor : ∀ actor : PxRigidDynamic,
      (Update.actorCalls actor).length =
        actor.shapes.countP (fun shape => shape.geometry.hasGizmo) := by
    intro actor
    unfold Update.actorCalls
    induction actor.shapes with
    | nil => simp
    | cons s rest ih =>
      rw [List.flatMap_cons, List.length_append, ih, hShape, List.countP_cons]
      split_ifs <;> omega
  have hAll : (Update step dt true w).gizmos =
      w.gizmos ++ (Update step dt true w).dynamicActors.flatMap Update.actorCalls := by
    simp [Update, Update.foldl_gizmos_true]
  refine ⟨?_, ?_, hAll, ?_, ?_⟩
  · intro globalPos globalRot shape h
    unfold Update.shape
    cases hg : shape.geometry <;> simp_all [PxGeometry.hasGizmo]
  · intro globalPos globalRot shape h
    unfold Update.shape
    cases hg : shape.geometry <;> simp_all [PxGeometry.hasGizmo, GizmoCall.isFor]
  · rw [hAll, List.length_append]
    congr 1
    induction (Update step dt true w).dynamicActors with
    | nil => simp
    | cons a rest ih => simp [List.flatMap_cons, ih, hActor]
  · simp [Update, Update.foldl_gizmos_false]

/-- C9: every gizmo call that `Update` issues is the call of some shape of some dynamic body, its
transform argument is the product of the body's global rotation matrix, the shape's local
rotation matrix and the translation by the shape's local position, in this order, and its centre
argument is the body's global position plus the translation column of that product, which is the
shape's local position rotated by the local and then the global rotation. -/
theorem Update_gizmo_transform (step : Scalar → List PxRigidDynamic → List PxRigidDynamic)
    (dt : Scalar) (a_renderGizmos : Bool) (w : World) :
    ∃ issued : List GizmoCall,
      (Update step dt a_renderGizmos w).gizmos = w.gizmos ++ issued ∧
      (a_renderGizmos = true →
        ∀ actor ∈ (Update step dt a_renderGizmos w).dynamicActors, ∀ shape ∈ actor.shapes,
          ∀ call ∈ Update.shape actor.globalPose.p.toVec3 actor.globalPose.q.toQuat shape,
            call ∈ issued) ∧
      ∀ call ∈ issued,
        ∃ actor ∈ (Update step dt a_renderGizmos w).dynamicActors, ∃ shape ∈ actor.shapes,
          call ∈ Update.shape actor.globalPose.p.toVec3 actor.globalPose.q.toQuat shape ∧
          call.transform =
            ((toMat4 actor.globalPose.q.toQuat).mul (toMat4 shape.localPose.q.toQuat)).mul
              (translate shape.localPose.p.toVec3) ∧
          call.center = actor.globalPose.p.toVec3.add call.transform.c3.xyz ∧
          call.center =
            actor.globalPose.p.toVec3.add
              (((toMat4 actor.globalPose.q.toQuat).mul
                (toMat4 shape.localPose.q.toQuat)).rotateVec shape.localPose.p.toVec3) := by
  cases a_renderGizmos with
  | false =>
    refine ⟨[], ?_, ?_, ?_⟩
    · simp [Update, Update.foldl_gizmos_false]
    · intro h
      cases h
    · intro call hcall
      simp at hcall
  | true =>
    refine ⟨(Update step dt true w).dynamicActors.flatMap Update.actorCalls, ?_, ?_, ?_⟩
    · simp [Update, Update.foldl_gizmos_true]
    · intro _ actor hactor shape hshape call hcall
      exact List.mem_flatMap.mpr ⟨actor, hactor, List.mem_flatMap.mpr ⟨shape, hshape, hcall⟩⟩
    · intro call hcall
      obtain ⟨actor, hactor, hcall⟩ := List.mem_flatMap.mp hcall
      obtain ⟨shape, hshape, hcall⟩ := List.mem_flatMap.mp hcall
      exact ⟨actor, hactor, shape, hshape, hcall, Update.shape_call _ _ _ _ hcall⟩

/-- C1, as amended: after `Update`, the model linked to a dynamic body that no later body of the
enumeration shares it with has the body's global position and orientation, component for
component; a model that no dynamic body refers to is not written. -/
theorem Update_pose_sync (step : Scalar → List PxRigidDynamic → List PxRigidDynamic)
    (dt : Scalar) (a_renderGizmos : Bool) (w : World) (model : Nat) :
    (∀ (earlier later : List PxRigidDynamic) (actor : PxRigidDynamic),
        (Update step dt a_renderGizmos w).dynamicActors = earlier ++ actor :: later →
        actor.userData = some model →
        (∀ b ∈ later, b.userData ≠ some model) →
        ((Update step dt a_renderGizmos w).models model).m_pos.x = actor.globalPose.p.x ∧
        ((Update step dt a_renderGizmos w).models model).m_pos.y = actor.globalPose.p.y ∧
        ((Update step dt a_renderGizmos w).models model).m_pos.z = actor.globalPose.p.z ∧
        ((Update step dt a_renderGizmos w).models model).m_rot.w = actor.globalPose.q.w ∧
        ((Update step dt a_renderGizmos w).models model).m_rot.x = actor.globalPose.q.x ∧
        ((Update step dt a_renderGizmos w).models model).m_rot.y = actor.globalPose.q.y ∧
        ((Update step dt a_renderGizmos w).models model).m_rot.z = actor.globalPose.q.z) ∧
      ((∀ b ∈ (Update step dt a_renderGizmos w).dynamicActors, b.userData ≠ some model) →
        (Update step dt a_renderGizmos w).models model = w.models model) := by
  constructor
  · intro earlier later actor hEnum hData hLater
    have hActors : step (dtClamped dt) w.dynamicActors = earlier ++ actor :: later := hEnum
    have hModel : (Update step dt a_renderGizmos w).models model =
        { (earlier.foldl (Update.actor a_renderGizmos) (w.models, w.gizmos)).1 model with
          m_pos := actor.globalPose.p.toVec3
          m_rot := actor.globalPose.q.toQuat } := by
      show ((step (dtClamped dt) w.dynamicActors).foldl (Update.actor a_renderGizmos)
        (w.models, w.gizmos)).1 model = _
      rw [hActors, List.foldl_append, List.foldl_cons,
        Update.foldl_models_of_ne a_renderGizmos later model hLater,
        Update.actor_models_of_eq a_renderGizmos _ actor model hData]
    rw [hModel]
    exact ⟨rfl, rfl, rfl, rfl, rfl, rfl, rfl⟩
  · intro hNone
    exact Update.foldl_models_of_ne a_renderGizmos _ model hNone (w.models, w.gizmos)

/-- C1, as stated, fails when two bodies share a model: in `sharedModelWorld` the first body
refers to model 0 and rests at `(1, 0, 0)`, yet after `Update` model 0 is at `(2, 0, 0)`. -/
theorem Update_pose_sync_shared_model :
    ∃ actor ∈ (Update restStep (1 / 60) false sharedModelWorld).dynamicActors,
      actor.userData = some 0 ∧
      actor.globalPose.p.x = 1 ∧
      ((Update restStep (1 / 60) false sharedModelWorld).models 0).m_pos.x = 2 ∧
      ((Update restStep (1 / 60) false sharedModelWorld).models 0).m_pos.x
        ≠ actor.globalPose.p.x := by
  refine ⟨sphereBodyAt ⟨1, 0, 0⟩ (some 0), ?_, rfl, rfl, ?_, ?_⟩
  · simp [Update, restStep, sharedModelWorld]
  · simp [Update, restStep, sharedModelWorld, emptyWorld, Update.actor, sphereBodyAt,
      PxVec3.toVec3]
  · simp [Update, restStep, sharedModelWorld, emptyWorld, Update.actor, sphereBodyAt,
      PxVec3.toVec3]

/-- The amended C1 at `sharedModelWorld`: model 0 follows the second body, the last that
refers to it. -/
theorem Update_pose_sync_witness :
    ((Update restStep (1 / 60) false sharedModelWorld).models 0).m_pos.x = 2 :=
  ((Update_pose_sync restStep (1 / 60) false sharedModelWorld 0).1
    [sphereBodyAt ⟨1, 0, 0⟩ (some 0)] [] (sphereBodyAt ⟨2, 0, 0⟩ (some 0)) rfl rfl
    (by simp)).1

/-! ## Properties of `AddRigidBodyDynamic` -/

/-- C4: `AddRigidBodyDynamic` with a model adds one body whose single shape sits at local
position `(0, radius, 0)` for a sphere and `(0, halfExtents.y, 0)` for a box, with identity
rotation; in both cases no model is changed. -/
theorem AddRigidBodyDynamic_sphere_box (lib : ScalarLib) (a_transform : PxTransform)
    (radius : Scalar) (halfExtents : PxVec3) (model : Nat) (w : World) :
    (AddRigidBodyDynamic lib a_transform (.sphere radius) (some model) w).dynamicActors
        = w.dynamicActors ++
          [{ globalPose := a_transform
             userData := some model
             shapes := [⟨⟨PxQuat.identity, ⟨0, radius, 0⟩⟩, .sphere radius⟩] }] ∧
      (AddRigidBodyDynamic lib a_transform (.sphere radius) (some model) w).models = w.models ∧
      (AddRigidBodyDynamic lib a_transform (.box halfExtents) (some model) w).dynamicActors
        = w.dynamicActors ++
          [{ globalPose := a_transform
             userData := some model
             shapes := [⟨⟨PxQuat.identity, ⟨0, halfExtents.y, 0⟩⟩, .box halfExtents⟩] }] ∧
      (AddRigidBodyDynamic lib a_transform (.box halfExtents) (some model) w).models = w.models :=
  ⟨rfl, rfl, rfl, rfl⟩

/-! ## Properties of `AttachRigidBodyConvex`: shapes of the body -/

/-- C8: with cooking present and a model given, `AttachRigidBodyConvex` creates the body with
the placeholder box as its only shape, attaches the convex shape made from the cooked stream
second, at the identity local pose, and detaches the first shape, the placeholder: the one body
it adds to the scene has the convex shape as its only shape. -/
theorem AttachRigidBodyConvex_shapes (a_transform : PxTransform) (model : Nat)
    (a_physModelScale : Scalar) (w : World) (cooking : PxCooking)
    (hCooking : w.m_cooking = some cooking) :
    ∃ (created attached : PxRigidDynamic) (convexShape : PxShape),
      convexShape =
        ⟨⟨PxQuat.identity, ⟨0, 0, 0⟩⟩,
          .convexMesh (createConvexMesh
            (cooking.cookConvexMesh (convexDesc a_physModelScale (w.models model))).2)⟩ ∧
      created = { PxCreateDynamic a_transform (.box ⟨1, 1, 1⟩) with userData := some model } ∧
      created.shapes = [⟨⟨PxQuat.identity, ⟨0, 0, 0⟩⟩, .box ⟨1, 1, 1⟩⟩] ∧
      attached = created.createShape convexShape.geometry convexShape.localPose ∧
      attached.shapes = [⟨⟨PxQuat.identity, ⟨0, 0, 0⟩⟩, .box ⟨1, 1, 1⟩⟩, convexShape] ∧
      (attached.detachShape 0).shapes = [convexShape] ∧
      (AttachRigidBodyConvex a_transform (some model) a_physModelScale w).dynamicActors
        = w.dynamicActors ++ [attached.detachShape 0] ∧
      (attached.detachShape 0).userData = some model := by
  refine ⟨_, _, _, rfl, rfl, rfl, rfl, rfl, rfl, ?_, rfl⟩
  simp [AttachRigidBodyConvex, hCooking, World.addActor, PxRigidDynamic.createShape,
    PxRigidDynamic.detachShape, PxCreateDynamic, PxTransform.ofPosition]

/-- C6, the code at the failing input: without cooking, `AttachRigidBodyConvex` with a model
still creates a convex mesh from the empty stream, makes it the shape of a new body and adds
that body to the scene. -/
theorem AttachRigidBodyConvex_without_cooking :
    emptyWorld.m_cooking = none ∧
      (AttachRigidBodyConvex ⟨PxQuat.identity, ⟨0, 0, 0⟩⟩ (some 0) 1 emptyWorld).dynamicActors
        = [{ globalPose := ⟨PxQuat.identity, ⟨0, 0, 0⟩⟩
             userData := some 0
             shapes := [⟨⟨PxQuat.identity, ⟨0, 0, 0⟩⟩, .convexMesh (createConvexMesh [])⟩] }] ∧
      (AttachRigidBodyConvex ⟨PxQuat.identity, ⟨0, 0, 0⟩⟩ (some 0) 1 emptyWorld).dynamicActors
        ≠ emptyWorld.dynamicActors := by
  refine ⟨rfl, ?_, ?_⟩
  · simp [AttachRigidBodyConvex, emptyWorld, World.addActor, PxRigidDynamic.createShape,
      PxRigidDynamic.detachShape, PxCreateDynamic, PxTransform.ofPosition]
  · simp [AttachRigidBodyConvex, emptyWorld, World.addActor]

/-! ## Properties of `MyAllocator` -/

/-- A pointer store leaves the bytes outside its range alone. -/
theorem storePtr_outside (n : Nat) :
    ∀ (mem : Memory) (addr v i : Nat), (i < addr ∨ addr + n ≤ i) →
      storePtr mem addr v n i = mem i := by
  induction n with
  | zero => intro mem addr v i _; rfl
  | succ n ih =>
    intro mem addr v i h
    have hne : i ≠ addr := by omega
    rw [storePtr, ih _ _ _ _ (by omega), Function.update_noteq hne]

/-- A pointer load reads back what a pointer store of the same width wrote. -/
theorem loadPtr_storePtr (n : Nat) :
    ∀ (mem : Memory) (addr v : Nat), loadPtr (storePtr mem addr v n) addr n = v % 256 ^ n := by
  induction n with
  | zero => intro mem addr v; simp [loadPtr, Nat.mod_one]
  | succ n ih =>
    intro mem addr v
    rw [loadPtr, storePtr, ih, storePtr_outside n _ _ _ _ (Or.inl (Nat.lt_succ_self addr)),
      Function.update_same, Nat.mod_mod, pow_succ, Nat.mul_comm (256 ^ n) 256, Nat.mod_mul]

/-- A pointer load depends only on the bytes in its range. -/
theorem loadPtr_congr (n : Nat) :
    ∀ (mem mem' : Memory) (addr : Nat), (∀ i, addr ≤ i → i < addr + n → mem' i = mem i) →
      loadPtr mem' addr n = loadPtr mem addr n := by
  induction n with
  | zero => intro mem mem' addr _; rfl
  | succ n ih =>
    intro mem mem' addr h
    rw [loadPtr, loadPtr, h addr (le_refl _) (by omega),
      ih mem mem' (addr + 1) (fun i h1 h2 => h i (by omega) (by omega))]

/-- C10: when `malloc(size + 32)` returns the block `[a, a + size + 32)`, `allocate` passes its
`Assert` and returns `r + 16` for `r = a + (16 - a mod 16)`; `r` and `r + 16` are multiples of
16; the pointer-sized header at `r` and the `size` bytes from `r + 16` lie inside the block and
do not overlap; and `deallocate` of the returned pointer frees `a`, whatever was written
meanwhile outside the header. -/
theorem allocate_deallocate (ptrBytes : Nat) (malloc : Nat → Nat) (mem : Memory) (size : Nat)
    (hPtr : ptrBytes ≤ 16)
    (hBlock : malloc ((size + 32) % 256 ^ ptrBytes) + size + 32 < 256 ^ ptrBytes) :
    ∃ (a r : Nat) (mem' : Memory),
      a = malloc (size + 32) ∧
      r = a + (16 - a % 16) ∧
      allocate ptrBytes malloc mem size = some (r + 16, mem') ∧
      r % 16 = 0 ∧ (r + 16) % 16 = 0 ∧
      a ≤ r ∧ r + ptrBytes ≤ a + size + 32 ∧
      r + ptrBytes ≤ r + 16 ∧
      a ≤ r + 16 ∧ r + 16 + size ≤ a + size + 32 ∧
      ∀ later : Memory, (∀ i, r ≤ i → i < r + ptrBytes → later i = mem' i) →
        deallocate ptrBytes later (r + 16) = some a := by
  have hReq : (size + 32) % 256 ^ ptrBytes = size + 32 := Nat.mod_eq_of_lt (by omega)
  rw [hReq] at hBlock
  have hk : malloc (size + 32) % 16 < 16 := Nat.mod_lt _ (by decide)
  have hr16 : (malloc (size + 32) + (16 - malloc (size + 32) % 16)) % 16 = 0 := by omega
  have hrLt : malloc (size + 32) + (16 - malloc (size + 32) % 16) < 256 ^ ptrBytes := by omega
  have hpLt : malloc (size + 32) + (16 - malloc (size + 32) % 16) + 16 < 256 ^ ptrBytes := by
    omega
  refine ⟨malloc (size + 32), malloc (size + 32) + (16 - malloc (size + 32) % 16),
    storePtr mem (malloc (size + 32) + (16 - malloc (size + 32) % 16)) (malloc (size + 32))
      ptrBytes, rfl, rfl, ?_, hr16, by omega, by omega, by omega, by omega, by omega, by omega,
    ?_⟩
  · unfold allocate
    simp only [hReq, Nat.mod_eq_of_lt hrLt, Nat.mod_eq_of_lt hpLt, hr16, if_true]
  · intro later hLater
    unfold deallocate
    have hBack : (malloc (size + 32) + (16 - malloc (size + 32) % 16) + 16 + 256 ^ ptrBytes - 16)
        % 256 ^ ptrBytes = malloc (size + 32) + (16 - malloc (size + 32) % 16) := by
      have : malloc (size + 32) + (16 - malloc (size + 32) % 16) + 16 + 256 ^ ptrBytes - 16
          = malloc (size + 32) + (16 - malloc (size + 32) % 16) + 256 ^ ptrBytes := by omega
      rw [this, Nat.add_mod_right, Nat.mod_eq_of_lt hrLt]
    rw [if_pos (by omega)]
    simp only [hBack]
    rw [loadPtr_congr ptrBytes _ later _ hLater, loadPtr_storePtr,
      Nat.mod_eq_of_lt (by omega)]

/-! ## Properties of `AttachRigidBodyConvex`: the points handed to cooking -/

/-- Conversion to `int` keeps a count below `2 ^ 31`. -/
theorem toInt32_of_lt (n : Nat) (h : n < 2 ^ 31) : toInt32 (n : Int) = (n : Int) := by
  unfold toInt32
  omega

/-- The counting loop adds up the vertex counts as long as the sum fits an `int`. -/
theorem countVerts_foldl (meshes : List FBXMeshNode) :
    ∀ acc : Nat, acc + totalVerts meshes < 2 ^ 31 →
      meshes.foldl (fun numberVerts mesh => toInt32 (numberVerts + mesh.m_vertices.length))
        (acc : Int) = ((acc + totalVerts meshes : Nat) : Int) := by
  induction meshes with
  | nil => intro acc _; simp [totalVerts]
  | cons m rest ih =>
    intro acc h
    have hTotal : totalVerts (m :: rest) = m.m_vertices.length + totalVerts rest := by
      simp [totalVerts]
    rw [hTotal] at h
    rw [List.foldl_cons, hTotal]
    have hStep : toInt32 ((acc : Int) + (m.m_vertices.length : Int))
        = ((acc + m.m_vertices.length : Nat) : Int) := by
      rw [← Nat.cast_add]
      exact toInt32_of_lt _ (by omega)
    rw [hStep, ih (acc + m.m_vertices.length) (by omega), Nat.add_assoc]

/-- The innermost copy loop after `j` rounds: `j` points written from index `k` on. -/
theorem copyVertex_range (s : Scalar) (mesh : FBXMeshNode) (buf : List PxVec3) (k : Nat)
    (hBuf : k + mesh.m_vertices.length ≤ buf.length)
    (hFit : k + mesh.m_vertices.length < 2 ^ 31) :
    ∀ j : Nat, j ≤ mesh.m_vertices.length →
      (List.range j).foldl (copyVertex s mesh) (buf, (k : Int))
        = (buf.take k ++ (mesh.m_vertices.take j).map (hullPoint s mesh) ++ buf.drop (k + j),
            ((k + j : Nat) : Int)) := by
  intro j
  induction j with
  | zero => intro _; simp
  | succ j ih =>
    intro hj
    have hjLt : j < mesh.m_vertices.length := hj
    have hIdx : k + j < buf.length := by omega
    rw [List.range_succ, List.foldl_append, ih (le_of_lt hjLt), List.foldl_cons, List.foldl_nil]
    unfold copyVertex
    have hNext : toInt32 (((k + j : Nat) : Int) + 1) = ((k + (j + 1) : Nat) : Int) := by
      have := toInt32_of_lt (k + (j + 1)) (by omega)
      rw [← this]
      congr 1
    have hLen : (buf.take k ++ (mesh.m_vertices.take j).map (hullPoint s mesh)).length
        = k + j := by
      rw [List.length_append, List.length_take, List.length_map, List.length_take]
      omega
    have hPoint : (⟨((mesh.m_globalTransform.mul (scale ⟨s, s, s⟩)).mulVec
          (mesh.m_vertices.getD j ⟨⟨0, 0, 0, 0⟩⟩).position).x,
        ((mesh.m_globalTransform.mul (scale ⟨s, s, s⟩)).mulVec
          (mesh.m_vertices.getD j ⟨⟨0, 0, 0, 0⟩⟩).position).y,
        ((mesh.m_globalTransform.mul (scale ⟨s, s, s⟩)).mulVec
          (mesh.m_vertices.getD j ⟨⟨0, 0, 0, 0⟩⟩).position).z⟩ : PxVec3)
        = hullPoint s mesh (mesh.m_vertices.get ⟨j, hjLt⟩) := by
      rw [List.getD_eq_getElem _ _ hjLt]
      rfl
    simp only [Int.toNat_ofNat, hNext, hPoint]
    rw [Prod.mk.injEq]
    refine ⟨?_, rfl⟩
    rw [List.set_append, if_neg (by omega), hLen, Nat.sub_self,
      List.drop_eq_getElem_cons hIdx, List.set_cons_zero, List.take_succ,
      List.getElem?_eq_getElem hjLt]
    simp only [Option.toList, List.map_append, List.map_cons, List.map_nil, List.append_assoc,
      List.singleton_append, Nat.add_assoc, List.get_eq_getElem]

/-- One sub-mesh copied: its points written from index `k` on. -/
theorem copyMesh_eq (s : Scalar) (mesh : FBXMeshNode) (buf : List PxVec3) (k : Nat)
    (hBuf : k + mesh.m_vertices.length ≤ buf.length)
    (hFit : k + mesh.m_vertices.length < 2 ^ 31) :
    copyMesh s (buf, (k : Int)) mesh
      = (buf.take k ++ mesh.m_vertices.map (hullPoint s mesh)
            ++ buf.drop (k + mesh.m_vertices.length),
          ((k + mesh.m_vertices.length : Nat) : Int)) := by
  unfold copyMesh
  simp only [toInt32_of_lt mesh.m_vertices.length (by omega), Int.toNat_ofNat]
  rw [copyVertex_range s mesh buf k hBuf hFit _ (le_refl _), List.take_length]

/-- All sub-meshes copied: their points written in order from index `k` on. -/
theorem copyMesh_foldl (s : Scalar) (meshes : List FBXMeshNode) :
    ∀ (buf : List PxVec3) (k : Nat), k + totalVerts meshes ≤ buf.length →
      k + totalVerts meshes < 2 ^ 31 →
      meshes.foldl (copyMesh s) (buf, (k : Int))
        = (buf.take k ++ hullPoints s meshes ++ buf.drop (k + totalVerts meshes),
            ((k + totalVerts meshes : Nat) : Int)) := by
  induction meshes with
  | nil =>
    intro buf k _ _
    simp [totalVerts, hullPoints]
  | cons m rest ih =>
    intro buf k hBuf hFit
    have hTotal : totalVerts (m :: rest) = m.m_vertices.length + totalVerts rest := by
      simp [totalVerts]
    have hPoints : hullPoints s (m :: rest)
        = m.m_vertices.map (hullPoint s m) ++ hullPoints s rest := by
      simp [hullPoints]
    rw [hTotal] at hBuf hFit
    have hLenA : (buf.take k ++ m.m_vertices.map (hullPoint s m)).length
        = k + m.m_vertices.length := by
      rw [List.length_append, List.length_take, List.length_map]
      omega
    have hLen : (buf.take k ++ m.m_vertices.map (hullPoint s m)
        ++ buf.drop (k + m.m_vertices.length)).length = buf.length := by
      rw [List.length_append, hLenA, List.length_drop]
      omega
    have hTake : (buf.take k ++ m.m_vertices.map (hullPoint s m)
        ++ buf.drop (k + m.m_vertices.length)).take (k + m.m_vertices.length)
        = buf.take k ++ m.m_vertices.map (hullPoint s m) := by
      rw [← hLenA, List.take_left]
    have hDrop : (buf.take k ++ m.m_vertices.map (hullPoint s m)
        ++ buf.drop (k + m.m_vertices.length)).drop
          (k + m.m_vertices.length + totalVerts rest)
        = buf.drop (k + (m.m_vertices.length + totalVerts rest)) := by
      rw [← hLenA, List.drop_append, hLenA, List.drop_drop, Nat.add_assoc]
    rw [List.foldl_cons, copyMesh_eq s m buf k (by omega) (by omega),
      ih _ (k + m.m_vertices.length) (by rw [hLen]; omega) (by omega),
      hTake, hDrop, hTotal, hPoints, Nat.add_assoc]
    simp only [List.append_assoc]

/-- The descriptor of a model whose vertex count fits an `int`. -/
theorem convexDesc_points (s : Scalar) (model : FBXModel)
    (hFit : totalVerts model.m_file.meshes < 2 ^ 31) :
    (convexDesc s model).points_count = totalVerts model.m_file.meshes ∧
      (convexDesc s model).points_data = hullPoints s model.m_file.meshes := by
  have hCount : countVerts model.m_file.meshes = (totalVerts model.m_file.meshes : Int) := by
    have := countVerts_foldl model.m_file.meshes 0 (by omega)
    simpa [countVerts] using this
  constructor
  · simp only [convexDesc, hCount, toUInt32]
    omega
  · simp only [convexDesc, fillVerts, hCount, Int.toNat_ofNat]
    have := copyMesh_foldl s model.m_file.meshes
      (List.replicate (totalVerts model.m_file.meshes) ⟨0, 0, 0⟩) 0 (by simp) (by omega)
    rw [Nat.cast_zero] at this
    rw [this]
    simp

/-- The number of points follows the vertex counts. -/
theorem hullPoints_length (s : Scalar) (meshes : List FBXMeshNode) :
    (hullPoints s meshes).length = totalVerts meshes := by
  induction meshes with
  | nil => rfl
  | cons m rest ih =>
    simp only [hullPoints, totalVerts, List.flatMap_cons, List.length_append, List.length_map,
      List.map_cons, List.sum_cons] at ih ⊢
    rw [ih]

/-- C5: for a model whose vertex count fits the `int` counter, `AttachRigidBodyConvex` hands to
cooking one descriptor, whose declared point count is the sum of the vertex counts of the
sub-meshes and whose points are, in sub-mesh order and then vertex order, the `xyz` parts of
sub-mesh transform times uniform scaling times vertex position, each vertex with the transform
of its own sub-mesh. -/
theorem AttachRigidBodyConvex_points (a_transform : PxTransform) (model : Nat)
    (a_physModelScale : Scalar) (w : World) (cooking : PxCooking)
    (hCooking : w.m_cooking = some cooking)
    (hFit : totalVerts (w.models model).m_file.meshes < 2 ^ 31) :
    ∃ desc : PxConvexMeshDesc,
      (AttachRigidBodyConvex a_transform (some model) a_physModelScale w).cookCalls
        = w.cookCalls ++ [desc] ∧
      desc.points_count = ((w.models model).m_file.meshes.map
        (fun mesh => mesh.m_vertices.length)).sum ∧
      desc.points_data = (w.models model).m_file.meshes.flatMap
        (fun mesh => mesh.m_vertices.map (fun v =>
          ((mesh.m_globalTransform.mul
            (scale ⟨a_physModelScale, a_physModelScale, a_physModelScale⟩)).mulVec
              v.position).xyz.toPxVec3)) ∧
      desc.points_data.length = desc.points_count := by
  obtain ⟨hCount, hData⟩ := convexDesc_points a_physModelScale (w.models model) hFit
  refine ⟨convexDesc a_physModelScale (w.models model), ?_, hCount, hData, ?_⟩
  · simp [AttachRigidBodyConvex, hCooking, World.addActor]
  · rw [hData, hCount, hullPoints_length]

/-! ## The statements at concrete inputs -/

/-- C5 at `twoMeshModel` with scale 2: sub-meshes of one and two vertices give three points. -/
theorem AttachRigidBodyConvex_points_witness :
    ∃ desc : PxConvexMeshDesc,
      (AttachRigidBodyConvex ⟨PxQuat.identity, ⟨0, 0, 0⟩⟩ (some 0) 2 cookingWorld).cookCalls
        = [desc] ∧
      desc.points_count = 3 ∧
      desc.points_data = [⟨3, 4, 6⟩, ⟨0, 0, 0⟩, ⟨2, 2, 2⟩] := by
  obtain ⟨desc, hCalls, hCount, hData, _⟩ :=
    AttachRigidBodyConvex_points ⟨PxQuat.identity, ⟨0, 0, 0⟩⟩ 0 2 cookingWorld countingCooking
      rfl (by simp [cookingWorld, twoMeshModel, totalVerts])
  refine ⟨desc, hCalls, ?_, ?_⟩
  · rw [hCount]
    simp [cookingWorld, twoMeshModel]
  · rw [hData]
    simp [cookingWorld, twoMeshModel, mat4.mul, mat4.mulVec, translate, scale, mat4.one,
      vec4.xyz, vec3.toPxVec3]
    norm_num

/-- C8 at `cookingWorld`: the body added has the convex shape, made from the three cooked bytes,
as its only shape. -/
theorem AttachRigidBodyConvex_shapes_witness :
    (AttachRigidBodyConvex ⟨PxQuat.identity, ⟨0, 0, 0⟩⟩ (some 0) 2 cookingWorld).dynamicActors
      = [{ globalPose := ⟨PxQuat.identity, ⟨0, 0, 0⟩⟩
           userData := some 0
           shapes := [⟨⟨PxQuat.identity, ⟨0, 0, 0⟩⟩, .convexMesh ⟨[1, 1, 1]⟩⟩] }] := by
  obtain ⟨created, attached, convexShape, hShape, hCreated, _, hAttached, _, _, hAdded, _⟩ :=
    AttachRigidBodyConvex_shapes ⟨PxQuat.identity, ⟨0, 0, 0⟩⟩ 0 2 cookingWorld countingCooking
      rfl
  have hCount : (convexDesc 2 twoMeshModel).points_count = 3 := by
    rw [(convexDesc_points 2 twoMeshModel (by simp [twoMeshModel, totalVerts])).1]
    simp [twoMeshModel, totalVerts]
  rw [hAdded, hAttached, hCreated, hShape]
  simp [countingCooking, hCount, cookingWorld, emptyWorld, PxRigidDynamic.createShape,
    PxRigidDynamic.detachShape, PxCreateDynamic, PxTransform.ofPosition, createConvexMesh]

/-- C10 on a machine with 8-byte pointers, `malloc` returning 4104 for a request of 100 bytes:
the header is at 4112, the returned pointer is 4128, and `deallocate` frees 4104. -/
theorem allocate_deallocate_witness :
    ∃ mem' : Memory,
      allocate 8 (fun _ => 4104) (fun _ => 0) 100 = some (4128, mem') ∧
      deallocate 8 mem' 4128 = some 4104 := by
  obtain ⟨a, r, mem', ha, hr, hAlloc, _, _, _, _, _, _, _, hFree⟩ :=
    allocate_deallocate 8 (fun _ => 4104) (fun _ => 0) 100 (by decide) (by norm_num)
  have ha' : a = 4104 := ha
  subst ha'
  have hr' : r = 4112 := hr
  subst hr'
  exact ⟨mem', hAlloc, hFree mem' (fun _ _ _ => rfl)⟩

/-- The gizmo calls of `Update` at `capsuleWorld`: one capsule call for the capsule shape, none
for the convex-mesh shape; the centre is the body position plus the turned local position. -/
theorem Update_gizmo_example :
    (Update restStep (1 / 60) true capsuleWorld).gizmos
      = [.addCapsule ⟨-7 / 25, 5 + 24 / 25, 0⟩ 4 1 12 12 ⟨0, 1, 0, 1⟩
          ⟨⟨-7 / 25, 24 / 25, 0, 0⟩, ⟨-24 / 25, -7 / 25, 0, 0⟩, ⟨0, 0, 1, 0⟩,
            ⟨-7 / 25, 24 / 25, 0, 1⟩⟩] := by
  simp [Update, restStep, capsuleWorld, emptyWorld, Update.actor, Update.shape, turnZ,
    PxTransform.ofPosition, PxQuat.identity, PxQuat.toQuat, PxVec3.toVec3, toMat4, mat4.mul,
    mat4.mulVec, translate, vec4.xyz, vec3.add]
  norm_num

end PhysScene
